import Mathlib

/-!
Shallow embedding of the bluedroid A2DP audio HAL
(`patch/external/bluetooth/bluedroid/audio_a2dp_hw/audio_a2dp_hw.c`).

The stream object (`struct a2dp_stream_out`) is modelled as a record of the
fields the state machine reads and writes: the two socket descriptors, the
lifecycle state and the stream configuration.  Socket system calls
(`send`/`recv`/`poll`/`connect`) are modelled by environment records that fix
the outcome of each call the C code can make, and every operation also
returns the list of socket operations it performed (plus the `usleep` calls
it made), so that properties of the form "no socket operation happens" and
"blocks for at least the computed duration" are statable.
-/

namespace A2dpHw

/-- Lifecycle states, from the `a2dp_state_t` enum in the source. -/
inductive A2dpState where
  | STARTING
  | STARTED
  | STOPPING
  | STOPPED
  | SUSPENDED
  | STANDBY
deriving DecidableEq, Repr

/-- Stream configuration (`struct a2dp_config`): sample rate, channel mask
and sample format. -/
structure A2dpConfig where
  rate : Nat
  channel_flags : Nat
  format : Int
deriving DecidableEq, Repr

/-- The fields of `struct a2dp_stream_out` that the state machine touches:
control and data socket descriptors, buffer size, lifecycle state and
configuration. -/
structure A2dpStreamOut where
  ctrl_fd : Int
  audio_fd : Int
  buffer_sz : Nat
  state : A2dpState
  cfg : A2dpConfig
deriving DecidableEq, Repr

/-- Modelled from the spec: the header `audio_a2dp_hw.h` is not under the
sources; the spec describes the disconnected socket handle as a sentinel
value, and `skt_connect` in the source returns `-1` on failure, which the
callers store directly into the handle field. -/
def AUDIO_SKT_DISCONNECTED : Int := -1

/-- Modelled from the spec: ack wire codes from the missing header; the spec
says `0` is success and a distinguished non-zero value is the transient-busy
(in-call) code; the header enumerates success, generic failure, in-call
failure in order. -/
def A2DP_CTRL_ACK_SUCCESS : Int := 0

/-- Modelled from the spec: generic failure ack code (see
`A2DP_CTRL_ACK_SUCCESS`). -/
def A2DP_CTRL_ACK_FAILURE : Int := 1

/-- Modelled from the spec: the distinguished transient-busy ack code (see
`A2DP_CTRL_ACK_SUCCESS`). -/
def A2DP_CTRL_ACK_INCALL_FAILURE : Int := 2

/-- Modelled from the spec: command wire codes, "1 byte command code
(enumerated 1..N)"; their numeric values never influence control flow in the
source. -/
def A2DP_CTRL_CMD_CHECK_READY : Int := 1

/-- Modelled from the spec: see `A2DP_CTRL_CMD_CHECK_READY`. -/
def A2DP_CTRL_CMD_START : Int := 2

/-- Modelled from the spec: see `A2DP_CTRL_CMD_CHECK_READY`. -/
def A2DP_CTRL_CMD_STOP : Int := 3

/-- Modelled from the spec: see `A2DP_CTRL_CMD_CHECK_READY`. -/
def A2DP_CTRL_CMD_SUSPEND : Int := 4

/-- Modelled from the spec: see `A2DP_CTRL_CMD_CHECK_READY`. -/
def A2DP_CTRL_CMD_CHECK_STREAM_STARTED : Int := 5

/-- Retry budget of the control-channel connection loop at stream open
(`CTRL_CHAN_RETRY_COUNT` in the source). -/
def CTRL_CHAN_RETRY_COUNT : Nat := 3

/-- Structural worker for `popcount`: the first argument is fuel, always at
least the number being examined, so the recursion is never cut short. -/
def popcountGo : Nat → Nat → Nat
  | 0, _ => 0
  | fuel + 1, n => if n = 0 then 0 else n % 2 + popcountGo fuel (n / 2)

/-- Number of set bits (the C `popcount` applied to the channel mask in
`calc_audiotime`). -/
def popcount (n : Nat) : Nat := popcountGo n n

/-- `calc_audiotime` from the source: microseconds of playback the given
byte count represents, `bytes * (1000000 / (chan_count * 2)) / rate` with C
integer division (all quantities non-negative). -/
def calc_audiotime (cfg : A2dpConfig) (bytes : Nat) : Nat :=
  bytes * (1000000 / (popcount cfg.channel_flags * 2)) / cfg.rate

/-- Observable operations: each socket call the C code can issue, and the
`usleep` calls (in microseconds). -/
inductive SockEv where
  | ctrlConnect
  | ctrlSend
  | ctrlRecv
  | dataConnect
  | dataPoll
  | dataSend
  | sleep (us : Nat)
deriving DecidableEq, Repr

/-- Total microseconds slept in a trace of operations. -/
def totalSleep : List SockEv → Nat
  | [] => 0
  | SockEv.sleep us :: rest => us + totalSleep rest
  | _ :: rest => totalSleep rest

/-- Number of control-socket `recv` calls (ack waits) in a trace. -/
def countRecv : List SockEv → Nat
  | [] => 0
  | SockEv.ctrlRecv :: rest => 1 + countRecv rest
  | _ :: rest => countRecv rest

/-- Outcome of one `recv` on the control socket: an ack byte, or an error
(`eintr` records whether `errno` was `EINTR`). -/
inductive RecvRes where
  | ok (ack : Int)
  | err (eintr : Bool)
deriving DecidableEq, Repr

/-- Environment for one control exchange: whether the command `send`
succeeds, and the outcomes of the first and (if reached) retried `recv`. -/
structure CtrlEnv where
  sendOk : Bool
  recv1 : RecvRes
  recv2 : RecvRes
deriving DecidableEq, Repr

/-- The ack-decoding tail of `a2dp_command` (source lines 388-397): the
in-call failure code is passed through as the return value, any other
non-success ack maps to `-1`, success maps to `0`.  The stream and the
event trace are returned unchanged. -/
def a2dp_command_ack (out : A2dpStreamOut) (ack : Int) (evs : List SockEv) :
    A2dpStreamOut × Int × List SockEv :=
  if ack = A2DP_CTRL_ACK_INCALL_FAILURE then (out, ack, evs)
  else if ack ≠ A2DP_CTRL_ACK_SUCCESS then (out, -1, evs)
  else (out, 0, evs)

/-- `a2dp_command` from the source: send one command byte; wait for one ack
byte, retrying the wait exactly once when the first wait fails with `EINTR`;
on a send failure, a non-`EINTR` wait failure, or a failed retry, the
control handle is disconnected and `-1` is returned; otherwise the ack is
decoded by `a2dp_command_ack`. -/
def a2dp_command (out : A2dpStreamOut) (cmd : Int) (env : CtrlEnv) :
    A2dpStreamOut × Int × List SockEv :=
  if env.sendOk = false then
    ({ out with ctrl_fd := AUDIO_SKT_DISCONNECTED }, -1, [SockEv.ctrlSend])
  else
    match env.recv1 with
    | RecvRes.ok ack =>
        a2dp_command_ack out ack [SockEv.ctrlSend, SockEv.ctrlRecv]
    | RecvRes.err eintr =>
        if eintr then
          match env.recv2 with
          | RecvRes.ok ack =>
              a2dp_command_ack out ack
                [SockEv.ctrlSend, SockEv.ctrlRecv, SockEv.ctrlRecv]
          | RecvRes.err _ =>
              ({ out with ctrl_fd := AUDIO_SKT_DISCONNECTED }, -1,
               [SockEv.ctrlSend, SockEv.ctrlRecv, SockEv.ctrlRecv])
        else
          ({ out with ctrl_fd := AUDIO_SKT_DISCONNECTED }, -1,
           [SockEv.ctrlSend, SockEv.ctrlRecv])

/-- The ack byte that a control exchange under `env` would deliver to the
ack-decoding step, if any (`none` when the exchange fails at the socket
level). -/
def recvAck (env : CtrlEnv) : Option Int :=
  if env.sendOk = false then none
  else
    match env.recv1 with
    | RecvRes.ok a => some a
    | RecvRes.err eintr =>
        if eintr then
          match env.recv2 with
          | RecvRes.ok a => some a
          | RecvRes.err _ => none
        else none

/-- Environment for `start_audio_datapath`: the control exchange plus the
result of `skt_connect` on the data path (`-1` on failure, the new
descriptor otherwise). -/
structure StartEnv where
  ctrl : CtrlEnv
  connectFd : Int
deriving DecidableEq, Repr

/-- `start_audio_datapath` from the source: fails fast when the control
handle is disconnected; enters `STARTING`, issues `Start`; reverts to the
prior state on a failed exchange or an in-call ack; on success connects the
data socket if it is not yet connected (reverting on connect failure,
entering `STARTED` on connect success); when the data socket is already
connected it returns success without touching the state again. -/
def start_audio_datapath (out : A2dpStreamOut) (env : StartEnv) :
    A2dpStreamOut × Int × List SockEv :=
  let oldstate := out.state
  if out.ctrl_fd = AUDIO_SKT_DISCONNECTED then (out, -1, [])
  else
    let r := a2dp_command { out with state := A2dpState.STARTING }
               A2DP_CTRL_CMD_START env.ctrl
    if r.2.1 < 0 then ({ r.1 with state := oldstate }, -1, r.2.2)
    else if r.2.1 = A2DP_CTRL_ACK_INCALL_FAILURE then
      ({ r.1 with state := oldstate }, -1, r.2.2)
    else if r.1.audio_fd = AUDIO_SKT_DISCONNECTED then
      let out3 : A2dpStreamOut := { r.1 with audio_fd := env.connectFd }
      if out3.audio_fd < 0 then
        ({ out3 with state := oldstate }, -1, r.2.2 ++ [SockEv.dataConnect])
      else
        ({ out3 with state := A2dpState.STARTED }, 0,
         r.2.2 ++ [SockEv.dataConnect])
    else (r.1, 0, r.2.2)

/-- `stop_audio_datapath` from the source: fails fast when the control
handle is disconnected; enters `STOPPING`, issues `Stop`; reverts to the
prior state on a negative exchange result; otherwise enters `STOPPED` and
disconnects the data socket. -/
def stop_audio_datapath (out : A2dpStreamOut) (env : CtrlEnv) :
    A2dpStreamOut × Int × List SockEv :=
  let oldstate := out.state
  if out.ctrl_fd = AUDIO_SKT_DISCONNECTED then (out, -1, [])
  else
    let r := a2dp_command { out with state := A2dpState.STOPPING }
               A2DP_CTRL_CMD_STOP env
    if r.2.1 < 0 then ({ r.1 with state := oldstate }, -1, r.2.2)
    else
      let out2 : A2dpStreamOut :=
        { r.1 with state := A2dpState.STOPPED, audio_fd := AUDIO_SKT_DISCONNECTED }
      (out2, 0, r.2.2)

/-- `suspend_audio_datapath` from the source: fails fast when the control
handle is disconnected or the state is `STOPPING`; issues `Suspend`; returns
`-1` (state untouched) on a negative exchange result; otherwise enters
`STANDBY` or `SUSPENDED` according to the flag and disconnects the data
socket. -/
def suspend_audio_datapath (out : A2dpStreamOut) (standby : Bool)
    (env : CtrlEnv) : A2dpStreamOut × Int × List SockEv :=
  if out.ctrl_fd = AUDIO_SKT_DISCONNECTED then (out, -1, [])
  else if out.state = A2dpState.STOPPING then (out, -1, [])
  else
    let r := a2dp_command out A2DP_CTRL_CMD_SUSPEND env
    if r.2.1 < 0 then (r.1, -1, r.2.2)
    else
      let newstate := if standby then A2dpState.STANDBY else A2dpState.SUSPENDED
      let out2 : A2dpStreamOut :=
        { r.1 with state := newstate, audio_fd := AUDIO_SKT_DISCONNECTED }
      (out2, 0, r.2.2)

/-- `check_a2dp_ready` from the source: issues `CheckReady` and maps any
negative exchange result to `-1`, everything else to `0`. -/
def check_a2dp_ready (out : A2dpStreamOut) (env : CtrlEnv) :
    A2dpStreamOut × Int × List SockEv :=
  let r := a2dp_command out A2DP_CTRL_CMD_CHECK_READY env
  if r.2.1 < 0 then (r.1, -1, r.2.2)
  else (r.1, 0, r.2.2)

/-- Outcome of one `skt_write` on the data socket: the 500 ms `poll` times
out (zero bytes, non-fatal), `send` returns an error, or `send` accepts
`sent` bytes. -/
inductive SktWriteEnv where
  | pollTimeout
  | sendErr
  | sendOk (sent : Nat)
deriving DecidableEq, Repr

/-- `skt_write` from the source: a poll timeout returns `0`, a send error
returns `-1`, otherwise the number of bytes accepted is returned. -/
def skt_write (fd : Int) (len : Nat) (env : SktWriteEnv) :
    Int × List SockEv :=
  match env with
  | SktWriteEnv.pollTimeout => (0, [SockEv.dataPoll])
  | SktWriteEnv.sendErr => (-1, [SockEv.dataPoll, SockEv.dataSend])
  | SktWriteEnv.sendOk sent => ((sent : Int), [SockEv.dataPoll, SockEv.dataSend])

/-- The transmit phase of `out_write` (source lines 654-671, after the lock
is released): hand the payload to `skt_write`; on a hard send error (`-1`)
disconnect the data socket and demote the state to `STOPPED` unless the
state at that moment is `SUSPENDED`, which is preserved. -/
def out_write_send_phase (out : A2dpStreamOut) (bytes : Nat)
    (wenv : SktWriteEnv) : A2dpStreamOut × Int × List SockEv :=
  let w := skt_write out.audio_fd bytes wenv
  if w.1 = -1 then
    let out2 : A2dpStreamOut := { out with audio_fd := AUDIO_SKT_DISCONNECTED }
    if out.state ≠ A2dpState.SUSPENDED then
      ({ out2 with state := A2dpState.STOPPED }, w.1, w.2)
    else (out2, w.1, w.2)
  else (out, w.1, w.2)

/-- `out_write` from the source: reject immediately in `SUSPENDED`; in
`STOPPED` or `STANDBY` attempt the autostart, and on its failure sleep for
`calc_audiotime` microseconds and return `-1`; reject in any other
non-`STARTED` state; otherwise transmit via `out_write_send_phase`. -/
def out_write (out : A2dpStreamOut) (bytes : Nat) (senv : StartEnv)
    (wenv : SktWriteEnv) : A2dpStreamOut × Int × List SockEv :=
  if out.state = A2dpState.SUSPENDED then (out, -1, [])
  else if out.state = A2dpState.STOPPED ∨ out.state = A2dpState.STANDBY then
    let r := start_audio_datapath out senv
    if r.2.1 < 0 then
      let us := calc_audiotime out.cfg bytes
      (r.1, -1, r.2.2 ++ [SockEv.sleep us])
    else
      let w := out_write_send_phase r.1 bytes wenv
      (w.1, w.2.1, r.2.2 ++ w.2.2)
  else if out.state ≠ A2dpState.STARTED then (out, -1, [])
  else out_write_send_phase out bytes wenv

/-- `out_standby` from the source: suspend into standby unless the state is
already `SUSPENDED`, in which case nothing is done and the initial `0` is
returned. -/
def out_standby (out : A2dpStreamOut) (env : CtrlEnv) :
    A2dpStreamOut × Int × List SockEv :=
  if out.state ≠ A2dpState.SUSPENDED then suspend_audio_datapath out true env
  else (out, 0, [])

/-- Modelled from the spec: default sample rate from the missing header (the
spec fixes a single supported default; the stock header value is 44100). -/
def AUDIO_STREAM_DEFAULT_RATE : Nat := 44100

/-- Modelled from the spec: default (stereo) channel mask from the missing
header; only its popcount matters to the model. -/
def AUDIO_STREAM_DEFAULT_CHANNEL_FLAG : Nat := 3

/-- Modelled from the spec: the single supported 16-bit PCM format code from
the missing header; never branched on in the modelled code. -/
def AUDIO_STREAM_DEFAULT_FORMAT : Int := 1

/-- Modelled from the spec: output buffer capacity from the missing header
(20 periods of 512 bytes); never branched on in the modelled code. -/
def AUDIO_STREAM_OUTPUT_BUFFER_SZ : Nat := 20 * 512

/-- `a2dp_stream_out_init` from the source: both handles disconnected,
state `STOPPED`, default configuration and buffer size. -/
def a2dp_stream_out_init : A2dpStreamOut :=
  { ctrl_fd := AUDIO_SKT_DISCONNECTED
    audio_fd := AUDIO_SKT_DISCONNECTED
    buffer_sz := AUDIO_STREAM_OUTPUT_BUFFER_SZ
    state := A2dpState.STOPPED
    cfg := { rate := AUDIO_STREAM_DEFAULT_RATE
             channel_flags := AUDIO_STREAM_DEFAULT_CHANNEL_FLAG
             format := AUDIO_STREAM_DEFAULT_FORMAT } }

/-- Environment for one iteration of the control-channel retry loop at
stream open: the `skt_connect` result and the `CheckReady` exchange. -/
structure AttemptEnv where
  connectFd : Int
  ready : CtrlEnv
deriving DecidableEq, Repr

/-- The control-channel retry loop of `adev_open_output_stream` (source
lines 1036-1052): up to `fuel` attempts; each attempt stores the
`skt_connect` result into `ctrl_fd`; on a descriptor greater than zero, runs
`check_a2dp_ready` and exits the loop on success; on a ready failure it
sleeps 250 ms, closes the socket WITHOUT resetting `ctrl_fd`, then sleeps
the loop's common 250 ms; on a connect failure it sleeps the common 250 ms
and retries. -/
def ctrl_retry_loop (env : Nat → AttemptEnv) (out : A2dpStreamOut)
    (i : Nat) (fuel : Nat) : A2dpStreamOut × List SockEv :=
  match fuel with
  | 0 => (out, [])
  | f + 1 =>
    let a := env i
    let out1 : A2dpStreamOut := { out with ctrl_fd := a.connectFd }
    if a.connectFd > 0 then
      let r := check_a2dp_ready out1 a.ready
      if r.2.1 = 0 then (r.1, SockEv.ctrlConnect :: r.2.2)
      else
        let rest := ctrl_retry_loop env r.1 (i + 1) f
        (rest.1,
         SockEv.ctrlConnect :: r.2.2 ++
           [SockEv.sleep 250000, SockEv.sleep 250000] ++ rest.2)
    else
      let rest := ctrl_retry_loop env out1 (i + 1) f
      (rest.1, SockEv.ctrlConnect :: SockEv.sleep 250000 :: rest.2)

/-- Result of `adev_open_output_stream`: the returned code, the caller's
`*stream_out` pointer and the device's `output` pointer (`none` models
`NULL`). -/
structure AdevOpenResult where
  ret : Int
  stream_out : Option A2dpStreamOut
  output : Option A2dpStreamOut
deriving DecidableEq, Repr

/-- `adev_open_output_stream` from the source (its state-relevant tail):
initialize the stream, run the retry loop, and fail (freeing the stream and
nulling both pointers) exactly when `ctrl_fd` equals the disconnected
sentinel after the loop; otherwise sleep the 250 ms settle delay and return
success with both pointers set. -/
def adev_open_output_stream (env : Nat → AttemptEnv) :
    AdevOpenResult × List SockEv :=
  let lr := ctrl_retry_loop env a2dp_stream_out_init 0 CTRL_CHAN_RETRY_COUNT
  if lr.1.ctrl_fd = AUDIO_SKT_DISCONNECTED then
    ({ ret := -1, stream_out := none, output := none }, lr.2)
  else
    ({ ret := 0, stream_out := some lr.1, output := some lr.1 },
     lr.2 ++ [SockEv.sleep 250000])

/-! Helper lemmas shared by the claim theorems. -/

theorem a2dp_command_ack_fst (out : A2dpStreamOut) (ack : Int)
    (evs : List SockEv) : (a2dp_command_ack out ack evs).1 = out := by
  unfold a2dp_command_ack
  split
  · rfl
  · split <;> rfl

theorem a2dp_command_ack_evs (out : A2dpStreamOut) (ack : Int)
    (evs : List SockEv) : (a2dp_command_ack out ack evs).2.2 = evs := by
  unfold a2dp_command_ack
  split
  · rfl
  · split <;> rfl

theorem a2dp_command_incall (out : A2dpStreamOut) (cmd : Int) (env : CtrlEnv)
    (h : recvAck env = some A2DP_CTRL_ACK_INCALL_FAILURE) :
    (a2dp_command out cmd env).1 = out ∧
    (a2dp_command out cmd env).2.1 = A2DP_CTRL_ACK_INCALL_FAILURE := by
  obtain ⟨s, r1, r2⟩ := env
  cases s <;> cases r1 <;>
    simp_all [recvAck, a2dp_command, a2dp_command_ack]
  · rename_i eintr
    cases eintr <;> simp_all
    cases r2 <;> simp_all

theorem totalSleep_append (l1 l2 : List SockEv) :
    totalSleep (l1 ++ l2) = totalSleep l1 + totalSleep l2 := by
  induction l1 with
  | nil => simp [totalSleep]
  | cons e rest ih =>
      cases e <;> simp [totalSleep, ih, Nat.add_assoc]

theorem a2dp_command_no_sleep (out : A2dpStreamOut) (cmd : Int)
    (env : CtrlEnv) : totalSleep (a2dp_command out cmd env).2.2 = 0 := by
  obtain ⟨s, r1, r2⟩ := env
  cases s <;> cases r1 <;>
    simp_all [a2dp_command, a2dp_command_ack_evs, totalSleep]
  · rename_i eintr
    cases eintr <;> simp_all [totalSleep]
    cases r2 <;> simp_all [a2dp_command_ack_evs, totalSleep]

theorem start_no_sleep (out : A2dpStreamOut) (env : StartEnv) :
    totalSleep (start_audio_datapath out env).2.2 = 0 := by
  unfold start_audio_datapath
  dsimp only
  split
  · rfl
  · split
    · exact a2dp_command_no_sleep _ _ _
    · split
      · exact a2dp_command_no_sleep _ _ _
      · split
        · split <;>
            simp [totalSleep_append, a2dp_command_no_sleep, totalSleep]
        · exact a2dp_command_no_sleep _ _ _

theorem start_incall_aux (out : A2dpStreamOut) (senv : StartEnv)
    (hc : out.ctrl_fd ≠ AUDIO_SKT_DISCONNECTED)
    (hbusy : recvAck senv.ctrl = some A2DP_CTRL_ACK_INCALL_FAILURE) :
    (start_audio_datapath out senv).2.1 = -1 ∧
    (start_audio_datapath out senv).1.state = out.state := by
  have h := a2dp_command_incall { out with state := A2dpState.STARTING }
    A2DP_CTRL_CMD_START senv.ctrl hbusy
  unfold start_audio_datapath
  dsimp only
  rw [if_neg hc, h.2]
  norm_num [A2DP_CTRL_ACK_INCALL_FAILURE]

theorem suspend_incall_aux (out : A2dpStreamOut) (standby : Bool)
    (env : CtrlEnv) (hc : out.ctrl_fd ≠ AUDIO_SKT_DISCONNECTED)
    (hst : out.state ≠ A2dpState.STOPPING)
    (hbusy : recvAck env = some A2DP_CTRL_ACK_INCALL_FAILURE) :
    (suspend_audio_datapath out standby env).2.1 = 0 ∧
    (suspend_audio_datapath out standby env).1.state =
      (if standby then A2dpState.STANDBY else A2dpState.SUSPENDED) ∧
    (suspend_audio_datapath out standby env).1.audio_fd =
      AUDIO_SKT_DISCONNECTED := by
  have h := a2dp_command_incall out A2DP_CTRL_CMD_SUSPEND env hbusy
  unfold suspend_audio_datapath
  dsimp only
  rw [if_neg hc, if_neg hst, h.2]
  norm_num [A2DP_CTRL_ACK_INCALL_FAILURE]

theorem stop_incall_aux (out : A2dpStreamOut) (env : CtrlEnv)
    (hc : out.ctrl_fd ≠ AUDIO_SKT_DISCONNECTED)
    (hbusy : recvAck env = some A2DP_CTRL_ACK_INCALL_FAILURE) :
    (stop_audio_datapath out env).2.1 = 0 ∧
    (stop_audio_datapath out env).1.state = A2dpState.STOPPED := by
  have h := a2dp_command_incall { out with state := A2dpState.STOPPING }
    A2DP_CTRL_CMD_STOP env hbusy
  unfold stop_audio_datapath
  dsimp only
  rw [if_neg hc, h.2]
  norm_num [A2DP_CTRL_ACK_INCALL_FAILURE]

/-- C4: for every pre-call state, when the `Start` control exchange during
`start_audio_datapath` delivers the transient-busy (in-call) ack, the call
returns failure and the stream state after the call equals the state held
before the call. -/
theorem start_incall_preserves_state (out : A2dpStreamOut) (senv : StartEnv)
    (hc : out.ctrl_fd ≠ AUDIO_SKT_DISCONNECTED)
    (hbusy : recvAck senv.ctrl = some A2DP_CTRL_ACK_INCALL_FAILURE) :
    (start_audio_datapath out senv).2.1 = -1 ∧
    (start_audio_datapath out senv).1.state = out.state :=
  start_incall_aux out senv hc hbusy

def exOutC4 : A2dpStreamOut :=
  { ctrl_fd := 5, audio_fd := AUDIO_SKT_DISCONNECTED, buffer_sz := 10240
    state := A2dpState.STOPPED
    cfg := { rate := 44100, channel_flags := 3, format := 1 } }

def exSenvC4 : StartEnv :=
  { ctrl := { sendOk := true
              recv1 := RecvRes.ok A2DP_CTRL_ACK_INCALL_FAILURE
              recv2 := RecvRes.ok 0 }
    connectFd := 7 }

/-- C4 witness: concrete stream in `STOPPED` with a connected control
channel, busy ack on `Start`: the call fails and the state stays `STOPPED`. -/
theorem start_incall_preserves_state_witness :
    (start_audio_datapath exOutC4 exSenvC4).2.1 = -1 ∧
    (start_audio_datapath exOutC4 exSenvC4).1.state = exOutC4.state :=
  start_incall_preserves_state exOutC4 exSenvC4 (by decide) (by decide)

/-- C5: `out_write` in state `SUSPENDED` returns the rejection `-1`,
performs no socket operation (empty operation trace) and leaves the whole
stream record unchanged. -/
theorem out_write_suspended_rejects (out : A2dpStreamOut) (bytes : Nat)
    (senv : StartEnv) (wenv : SktWriteEnv)
    (h : out.state = A2dpState.SUSPENDED) :
    out_write out bytes senv wenv = (out, -1, []) := by
  unfold out_write
  rw [if_pos h]

def exOutC5 : A2dpStreamOut :=
  { ctrl_fd := 5, audio_fd := 6, buffer_sz := 10240
    state := A2dpState.SUSPENDED
    cfg := { rate := 44100, channel_flags := 3, format := 1 } }

def exSenvC5 : StartEnv :=
  { ctrl := { sendOk := true, recv1 := RecvRes.ok 0, recv2 := RecvRes.ok 0 }
    connectFd := 7 }

/-- C5 witness: a suspended stream rejects a 512-byte write with no
operations and no state change. -/
theorem out_write_suspended_rejects_witness :
    out_write exOutC5 512 exSenvC5 SktWriteEnv.pollTimeout =
      (exOutC5, -1, []) :=
  out_write_suspended_rejects exOutC5 512 exSenvC5 SktWriteEnv.pollTimeout rfl

/-- C10: `out_standby` called while the state is `SUSPENDED` returns `0`,
issues no control command and no socket operation, and leaves the stream
(including its state) unchanged. -/
theorem out_standby_suspended_noop (out : A2dpStreamOut) (env : CtrlEnv)
    (h : out.state = A2dpState.SUSPENDED) :
    out_standby out env = (out, 0, []) := by
  unfold out_standby
  simp [h]

def exOutC10 : A2dpStreamOut :=
  { ctrl_fd := 5, audio_fd := AUDIO_SKT_DISCONNECTED, buffer_sz := 10240
    state := A2dpState.SUSPENDED
    cfg := { rate := 44100, channel_flags := 3, format := 1 } }

def exEnvC10 : CtrlEnv :=
  { sendOk := true, recv1 := RecvRes.ok 0, recv2 := RecvRes.ok 0 }

/-- C10 witness: standby on a suspended stream is a no-op returning `0`. -/
theorem out_standby_suspended_noop_witness :
    out_standby exOutC10 exEnvC10 = (exOutC10, 0, []) :=
  out_standby_suspended_noop exOutC10 exEnvC10 rfl

/-- C7: in the transmit phase of `out_write`, a hard send error (`-1` from
`skt_write`) disconnects the data handle, returns `-1`, and demotes the
state to `STOPPED` unless the state at that moment is `SUSPENDED`, which is
preserved; a poll timeout returns `0` bytes with no change at all; and when
the stream is `STARTED`, `out_write` is exactly this transmit phase. -/
theorem write_hard_error_demotes (out : A2dpStreamOut) (bytes : Nat)
    (senv : StartEnv) (wenv : SktWriteEnv) :
    ((out_write_send_phase out bytes SktWriteEnv.sendErr).1.audio_fd =
       AUDIO_SKT_DISCONNECTED ∧
     (out_write_send_phase out bytes SktWriteEnv.sendErr).2.1 = -1 ∧
     (out_write_send_phase out bytes SktWriteEnv.sendErr).1.state =
       (if out.state = A2dpState.SUSPENDED then A2dpState.SUSPENDED
        else A2dpState.STOPPED)) ∧
    out_write_send_phase out bytes SktWriteEnv.pollTimeout =
      (out, 0, [SockEv.dataPoll]) ∧
    (out.state = A2dpState.STARTED →
      out_write out bytes senv wenv = out_write_send_phase out bytes wenv) := by
  refine ⟨?_, ?_, ?_⟩
  · by_cases hs : out.state = A2dpState.SUSPENDED <;>
      simp [out_write_send_phase, skt_write, hs]
  · simp [out_write_send_phase, skt_write]
  · intro h
    unfold out_write
    simp [h]

def exOutC7 : A2dpStreamOut :=
  { ctrl_fd := 5, audio_fd := 6, buffer_sz := 10240
    state := A2dpState.STARTED
    cfg := { rate := 44100, channel_flags := 3, format := 1 } }

def exSenvC7 : StartEnv :=
  { ctrl := { sendOk := true, recv1 := RecvRes.ok 0, recv2 := RecvRes.ok 0 }
    connectFd := 7 }

/-- C7 witness: on a started stream, a hard send error yields a disconnected
data handle, return `-1`, and state `STOPPED`; a poll timeout is a pure
zero-byte result. -/
theorem write_hard_error_demotes_witness :
    ((out_write_send_phase exOutC7 512 SktWriteEnv.sendErr).1.audio_fd =
       AUDIO_SKT_DISCONNECTED ∧
     (out_write_send_phase exOutC7 512 SktWriteEnv.sendErr).2.1 = -1 ∧
     (out_write_send_phase exOutC7 512 SktWriteEnv.sendErr).1.state =
       (if exOutC7.state = A2dpState.SUSPENDED then A2dpState.SUSPENDED
        else A2dpState.STOPPED)) ∧
    out_write_send_phase exOutC7 512 SktWriteEnv.pollTimeout =
      (exOutC7, 0, [SockEv.dataPoll]) ∧
    (exOutC7.state = A2dpState.STARTED →
      out_write exOutC7 512 exSenvC7 SktWriteEnv.sendErr =
        out_write_send_phase exOutC7 512 SktWriteEnv.sendErr) :=
  write_hard_error_demotes exOutC7 512 exSenvC7 SktWriteEnv.sendErr

def exOutC1 : A2dpStreamOut :=
  { ctrl_fd := 5, audio_fd := 6, buffer_sz := 10240
    state := A2dpState.STANDBY
    cfg := { rate := 44100, channel_flags := 3, format := 1 } }

def exSenvC1 : StartEnv :=
  { ctrl := { sendOk := true, recv1 := RecvRes.ok 0, recv2 := RecvRes.ok 0 }
    connectFd := 7 }

/-- C1: evaluation at the failing input.  From `STANDBY` with both sockets
connected and a successful `Start` ack, `start_audio_datapath` returns
success `0` yet leaves the state at `STARTING` (the `STARTED` assignment
sits inside the connect-if-not-yet-connected branch, which is skipped), and
the very next `out_write` on the resulting stream is rejected with `-1`
without touching the stream, since `STARTING` is neither autostart-eligible
nor `STARTED`. -/
theorem start_stuck_in_starting :
    exOutC1.state = A2dpState.STANDBY ∧
    (start_audio_datapath exOutC1 exSenvC1).2.1 = 0 ∧
    (start_audio_datapath exOutC1 exSenvC1).1.state = A2dpState.STARTING ∧
    (out_write (start_audio_datapath exOutC1 exSenvC1).1 256 exSenvC1
        SktWriteEnv.pollTimeout).2.1 = -1 ∧
    (out_write (start_audio_datapath exOutC1 exSenvC1).1 256 exSenvC1
        SktWriteEnv.pollTimeout).1 = (start_audio_datapath exOutC1 exSenvC1).1
    := by decide

/-- C2 (amended): for every pre-call state S, `stop_audio_datapath` either
returns `0` having set the state to `STOPPED` and disconnected the data
handle, or returns `-1` with the state exactly S; there is no special
rejection when the state is already `STOPPING` — such a call proceeds like
any other. -/
theorem stop_audio_datapath_cases (out : A2dpStreamOut) (env : CtrlEnv) :
    ((stop_audio_datapath out env).2.1 = 0 ∧
     (stop_audio_datapath out env).1.state = A2dpState.STOPPED ∧
     (stop_audio_datapath out env).1.audio_fd = AUDIO_SKT_DISCONNECTED) ∨
    ((stop_audio_datapath out env).2.1 = -1 ∧
     (stop_audio_datapath out env).1.state = out.state) := by
  unfold stop_audio_datapath
  dsimp only
  split
  · right; exact ⟨rfl, rfl⟩
  · split
    · right; exact ⟨rfl, rfl⟩
    · left; exact ⟨rfl, rfl, rfl⟩

def exOutC2 : A2dpStreamOut :=
  { ctrl_fd := 5, audio_fd := 6, buffer_sz := 10240
    state := A2dpState.STOPPING
    cfg := { rate := 44100, channel_flags := 3, format := 1 } }

def exEnvC2 : CtrlEnv :=
  { sendOk := true, recv1 := RecvRes.ok 0, recv2 := RecvRes.ok 0 }

/-- C2 counterexample: called while the state is already `STOPPING` (with
the control channel connected and a success ack), `stop_audio_datapath`
does NOT return failure with the state unchanged — it returns `0` and moves
the state to `STOPPED`.  The only `STOPPING` guard in the source is in
`suspend_audio_datapath`. -/
theorem stop_from_stopping_succeeds :
    exOutC2.state = A2dpState.STOPPING ∧
    (stop_audio_datapath exOutC2 exEnvC2).2.1 = 0 ∧
    (stop_audio_datapath exOutC2 exEnvC2).1.state ≠ exOutC2.state := by
  decide

/-- C3 (amended): a transient-busy (in-call) ack leaves the local state
unchanged only during `start_audio_datapath` (which returns failure);
`suspend_audio_datapath` and `stop_audio_datapath` compare the exchange
result against `0` only, so the busy ack (a positive code) is treated as
success there: suspend completes its normal transition to
`STANDBY`/`SUSPENDED` with the data handle disconnected, and stop completes
its transition to `STOPPED`. -/
theorem incall_ack_outcomes (out : A2dpStreamOut) (senv : StartEnv)
    (env : CtrlEnv) (standby : Bool)
    (hc : out.ctrl_fd ≠ AUDIO_SKT_DISCONNECTED)
    (h1 : recvAck senv.ctrl = some A2DP_CTRL_ACK_INCALL_FAILURE)
    (h2 : recvAck env = some A2DP_CTRL_ACK_INCALL_FAILURE) :
    ((start_audio_datapath out senv).2.1 = -1 ∧
     (start_audio_datapath out senv).1.state = out.state) ∧
    (out.state ≠ A2dpState.STOPPING →
      (suspend_audio_datapath out standby env).2.1 = 0 ∧
      (suspend_audio_datapath out standby env).1.state =
        (if standby then A2dpState.STANDBY else A2dpState.SUSPENDED) ∧
      (suspend_audio_datapath out standby env).1.audio_fd =
        AUDIO_SKT_DISCONNECTED) ∧
    ((stop_audio_datapath out env).2.1 = 0 ∧
     (stop_audio_datapath out env).1.state = A2dpState.STOPPED) :=
  ⟨start_incall_aux out senv hc h1,
   fun hst => suspend_incall_aux out standby env hc hst h2,
   stop_incall_aux out env hc h2⟩

def exOutC3 : A2dpStreamOut :=
  { ctrl_fd := 5, audio_fd := 6, buffer_sz := 10240
    state := A2dpState.STARTED
    cfg := { rate := 44100, channel_flags := 3, format := 1 } }

def exEnvC3 : CtrlEnv :=
  { sendOk := true
    recv1 := RecvRes.ok A2DP_CTRL_ACK_INCALL_FAILURE
    recv2 := RecvRes.ok 0 }

def exSenvC3 : StartEnv := { ctrl := exEnvC3, connectFd := 7 }

/-- C3 counterexample: from `STARTED`, with the remote acking the suspend
exchange with the transient-busy (in-call) code, `suspend_audio_datapath`
returns success and moves the state to `SUSPENDED` — the busy ack does
perturb the local state, contradicting the claim for suspend. -/
theorem suspend_incall_changes_state :
    exOutC3.state = A2dpState.STARTED ∧
    recvAck exEnvC3 = some A2DP_CTRL_ACK_INCALL_FAILURE ∧
    (suspend_audio_datapath exOutC3 false exEnvC3).2.1 = 0 ∧
    (suspend_audio_datapath exOutC3 false exEnvC3).1.state =
      A2dpState.SUSPENDED := by decide

/-- C3 witness: concrete instance of the amended claim from `STARTED` with a
busy ack on every exchange. -/
theorem incall_ack_outcomes_witness :
    ((start_audio_datapath exOutC3 exSenvC3).2.1 = -1 ∧
     (start_audio_datapath exOutC3 exSenvC3).1.state = exOutC3.state) ∧
    (exOutC3.state ≠ A2dpState.STOPPING →
      (suspend_audio_datapath exOutC3 false exEnvC3).2.1 = 0 ∧
      (suspend_audio_datapath exOutC3 false exEnvC3).1.state =
        (if false then A2dpState.STANDBY else A2dpState.SUSPENDED) ∧
      (suspend_audio_datapath exOutC3 false exEnvC3).1.audio_fd =
        AUDIO_SKT_DISCONNECTED) ∧
    ((stop_audio_datapath exOutC3 exEnvC3).2.1 = 0 ∧
     (stop_audio_datapath exOutC3 exEnvC3).1.state = A2dpState.STOPPED) :=
  incall_ack_outcomes exOutC3 exSenvC3 exEnvC3 false (by decide) (by decide)
    (by decide)

/-- C6: when `out_write` runs in `STOPPED` or `STANDBY` and the autostart
attempt fails, it returns `-1` after sleeping exactly
`bytes * (1000000 / (channel_count * 2)) / rate` microseconds (the
`calc_audiotime` playback duration of the payload, 16-bit samples), which
is in particular at least that duration. -/
theorem out_write_autostart_failure_paces (out : A2dpStreamOut) (bytes : Nat)
    (senv : StartEnv) (wenv : SktWriteEnv)
    (hs : out.state = A2dpState.STOPPED ∨ out.state = A2dpState.STANDBY)
    (hf : (start_audio_datapath out senv).2.1 < 0) :
    (out_write out bytes senv wenv).2.1 = -1 ∧
    totalSleep (out_write out bytes senv wenv).2.2 =
      bytes * (1000000 / (popcount out.cfg.channel_flags * 2)) /
        out.cfg.rate := by
  have hns : out.state ≠ A2dpState.SUSPENDED := by
    rcases hs with h | h <;> simp [h]
  unfold out_write
  dsimp only
  rw [if_neg hns, if_pos hs, if_pos hf]
  refine ⟨rfl, ?_⟩
  simp [totalSleep_append, start_no_sleep, totalSleep, calc_audiotime]

def exOutC6 : A2dpStreamOut :=
  { ctrl_fd := AUDIO_SKT_DISCONNECTED, audio_fd := AUDIO_SKT_DISCONNECTED
    buffer_sz := 10240
    state := A2dpState.STOPPED
    cfg := { rate := 8000, channel_flags := 1, format := 1 } }

def exSenvC6 : StartEnv :=
  { ctrl := { sendOk := true, recv1 := RecvRes.ok 0, recv2 := RecvRes.ok 0 }
    connectFd := 7 }

/-- C6 witness: a 1024-byte (512-sample) mono 16-bit 8000 Hz payload written
in `STOPPED` with an unreachable endpoint (control handle disconnected, so
autostart fails) returns `-1` after sleeping 64000 us = 64 ms. -/
theorem out_write_autostart_failure_paces_witness :
    (out_write exOutC6 1024 exSenvC6 SktWriteEnv.pollTimeout).2.1 = -1 ∧
    totalSleep (out_write exOutC6 1024 exSenvC6 SktWriteEnv.pollTimeout).2.2 =
      1024 * (1000000 / (popcount exOutC6.cfg.channel_flags * 2)) /
        exOutC6.cfg.rate ∧
    totalSleep (out_write exOutC6 1024 exSenvC6 SktWriteEnv.pollTimeout).2.2 =
      64000 :=
  ⟨(out_write_autostart_failure_paces exOutC6 1024 exSenvC6
      SktWriteEnv.pollTimeout (Or.inl rfl) (by decide)).1,
   (out_write_autostart_failure_paces exOutC6 1024 exSenvC6
      SktWriteEnv.pollTimeout (Or.inl rfl) (by decide)).2,
   by decide⟩

/-- C8: given that the command byte was sent, `a2dp_command` performs a
second ack wait exactly when the first wait fails with a transient-signal
interruption (never more than two waits in total); a first-wait failure that
is not an interruption, or a failure of the single retried wait, marks the
control handle disconnected and returns the protocol error `-1`. -/
theorem a2dp_command_retry_policy (out : A2dpStreamOut) (cmd : Int)
    (env : CtrlEnv) (hs : env.sendOk = true) :
    (countRecv (a2dp_command out cmd env).2.2 = 2 ↔
      env.recv1 = RecvRes.err true) ∧
    countRecv (a2dp_command out cmd env).2.2 ≤ 2 ∧
    (env.recv1 = RecvRes.err false →
      (a2dp_command out cmd env).1.ctrl_fd = AUDIO_SKT_DISCONNECTED ∧
      (a2dp_command out cmd env).2.1 = -1) ∧
    (∀ b : Bool, env.recv1 = RecvRes.err true → env.recv2 = RecvRes.err b →
      (a2dp_command out cmd env).1.ctrl_fd = AUDIO_SKT_DISCONNECTED ∧
      (a2dp_command out cmd env).2.1 = -1) := by
  obtain ⟨s, r1, r2⟩ := env
  dsimp only at hs
  subst hs
  cases r1 with
  | ok a =>
      simp [a2dp_command, a2dp_command_ack_evs, a2dp_command_ack_fst,
        countRecv]
  | err e =>
      cases e with
      | false => simp [a2dp_command, countRecv]
      | true =>
          cases r2 with
          | ok a =>
              simp [a2dp_command, a2dp_command_ack_evs, a2dp_command_ack_fst,
                countRecv]
          | err b => simp [a2dp_command, countRecv]

def exOutC8 : A2dpStreamOut :=
  { ctrl_fd := 5, audio_fd := AUDIO_SKT_DISCONNECTED, buffer_sz := 10240
    state := A2dpState.STOPPED
    cfg := { rate := 44100, channel_flags := 3, format := 1 } }

def exEnvC8 : CtrlEnv :=
  { sendOk := true, recv1 := RecvRes.err true, recv2 := RecvRes.err false }

/-- C8 witness: first wait interrupted by a transient signal, retried wait
fails: exactly two waits occur, the control handle ends disconnected and the
result is the protocol error `-1`. -/
theorem a2dp_command_retry_policy_witness :
    (countRecv (a2dp_command exOutC8 A2DP_CTRL_CMD_START exEnvC8).2.2 = 2 ↔
      exEnvC8.recv1 = RecvRes.err true) ∧
    countRecv (a2dp_command exOutC8 A2DP_CTRL_CMD_START exEnvC8).2.2 ≤ 2 ∧
    (exEnvC8.recv1 = RecvRes.err false →
      (a2dp_command exOutC8 A2DP_CTRL_CMD_START exEnvC8).1.ctrl_fd =
        AUDIO_SKT_DISCONNECTED ∧
      (a2dp_command exOutC8 A2DP_CTRL_CMD_START exEnvC8).2.1 = -1) ∧
    (∀ b : Bool, exEnvC8.recv1 = RecvRes.err true →
      exEnvC8.recv2 = RecvRes.err b →
      (a2dp_command exOutC8 A2DP_CTRL_CMD_START exEnvC8).1.ctrl_fd =
        AUDIO_SKT_DISCONNECTED ∧
      (a2dp_command exOutC8 A2DP_CTRL_CMD_START exEnvC8).2.1 = -1) :=
  a2dp_command_retry_policy exOutC8 A2DP_CTRL_CMD_START exEnvC8 rfl

def exEnvC9 : Nat → AttemptEnv := fun i =>
  if i = 2 then
    { connectFd := 5
      ready := { sendOk := true
                 recv1 := RecvRes.ok A2DP_CTRL_ACK_FAILURE
                 recv2 := RecvRes.ok 0 } }
  else
    { connectFd := -1
      ready := { sendOk := true, recv1 := RecvRes.ok 0, recv2 := RecvRes.ok 0 } }

/-- C9: evaluation at the failing input.  All three attempts fail — the
first two connects fail, the third connects (descriptor 5) but its readiness
check receives a generic-failure ack — yet `adev_open_output_stream`
returns `0` with both pointers set (to a stream whose control socket was
closed by `skt_disconnect` but whose `ctrl_fd` field still holds 5): the
readiness-failure path closes the socket without resetting `ctrl_fd`, so the
post-loop `ctrl_fd == AUDIO_SKT_DISCONNECTED` failure check is defeated. -/
theorem open_success_after_three_failed_attempts :
    ((exEnvC9 0).connectFd < 0 ∧ (exEnvC9 1).connectFd < 0) ∧
    (check_a2dp_ready { a2dp_stream_out_init with
        ctrl_fd := (exEnvC9 2).connectFd } (exEnvC9 2).ready).2.1 = -1 ∧
    (adev_open_output_stream exEnvC9).1.ret = 0 ∧
    (adev_open_output_stream exEnvC9).1.stream_out ≠ none ∧
    (adev_open_output_stream exEnvC9).1.output ≠ none ∧
    Option.map A2dpStreamOut.ctrl_fd
      (adev_open_output_stream exEnvC9).1.stream_out = some 5 := by decide

end A2dpHw
